import Mathlib

/-!
# rolomator: reaction roles

A shallow embedding of `src/main.go`.  The Go globals `config` and `roleCache`, the state of the
chat platform behind the `discordgo.Session`, the sequence of platform calls made so far and the
lines written to standard output are the fields of an explicit `State`; every Go function becomes
a state transformer.  The platform answers each call as a function of its own state, so the
theorems below hold for every pattern of success and failure of the calls.
-/

set_option autoImplicit false

namespace Rolomator

/-! ## Go maps -/

/-- The read `m[k]` on a list of key/value pairs: the value of the first pair with key `k`. -/
def lookupEntries {V : Type} (k : String) : List (String × V) → Option V
  | [] => none
  | e :: rest => if e.1 = k then some e.2 else lookupEntries k rest

/-- A Go `map[string]V`: finitely many key/value pairs, no key twice. -/
structure GoMap (V : Type) where
  entries : List (String × V)
  nodup : (entries.map Prod.fst).Nodup

namespace GoMap

variable {V : Type}

/-- The map `make(map[string]V)`. -/
def empty : GoMap V := ⟨[], List.nodup_nil⟩

/-- The keys of the map, each once. -/
def keys (m : GoMap V) : List String := m.entries.map Prod.fst

/-- The comma-ok read `v, ok := m[k]`: `none` stands for `ok == false`. -/
def lookup (m : GoMap V) (k : String) : Option V := lookupEntries k m.entries

/-- The assignment `m[k] = v`: a binding of `k` already there is replaced. -/
def insert (m : GoMap V) (k : String) (v : V) : GoMap V :=
  ⟨(k, v) :: m.entries.filter (fun e => e.1 ≠ k), by
    rw [List.map_cons, List.nodup_cons]
    refine ⟨?_, (List.filter_sublist m.entries).map Prod.fst |>.nodup m.nodup⟩
    intro h
    obtain ⟨e, he, hk⟩ := List.mem_map.1 h
    have := (List.mem_filter.1 he).2
    simp [hk] at this⟩

end GoMap

/-- The plain read `m[k]` of a `map[string]string`: a missing key reads as the zero value `""`. -/
def index (m : GoMap String) (k : String) : String := (m.lookup k).getD ""

/-- The chained read `roleCache[guildID][roleID]`: a missing guild reads as the nil map, and a
read from the nil map yields the zero value `""`. -/
def index2 (m : GoMap (GoMap String)) (guildID roleID : String) : String :=
  match m.lookup guildID with
  | none => ""
  | some inner => index inner roleID

/-! ## Data model -/

/-- The `Config` struct of `main.go`; `Reactions` maps an emoji to a role ID. -/
structure Config where
  GuildID : String
  ChannelID : String
  MessageID : String
  Reactions : GoMap String

/-- The fields of `discordgo.Role` that the program reads. -/
structure Role where
  ID : String
  Name : String
  deriving DecidableEq, Repr

/-- The field of `discordgo.Emoji` that the program reads. -/
structure Emoji where
  Name : String
  deriving DecidableEq, Repr

/-- The `discordgo.MessageReaction` embedded in `MessageReactionAdd` and
`MessageReactionRemove` events. -/
structure MessageReaction where
  UserID : String
  MessageID : String
  Emoji : Emoji
  ChannelID : String
  GuildID : String
  deriving DecidableEq, Repr

/-- A call of a `discordgo.Session` method, with its arguments.  The specification calls
`GuildMemberRoleAdd` GrantRole, `GuildMemberRoleRemove` RevokeRole, `UserChannelCreate`
CreateDirectChannel, `ChannelMessageSend` SendMessage and `MessageReactionAdd` AddReaction. -/
inductive Call where
  | GuildMemberRoleAdd (guildID userID roleID : String)
  | GuildMemberRoleRemove (guildID userID roleID : String)
  | UserChannelCreate (recipientID : String)
  | ChannelMessageSend (channelID content : String)
  | GuildRoles (guildID : String)
  | MessageReactionAdd (channelID messageID emojiID : String)
  deriving DecidableEq, Repr

/-- Whether the call grants or revokes a role. -/
def Call.isRoleMutation : Call → Bool
  | .GuildMemberRoleAdd _ _ _ => true
  | .GuildMemberRoleRemove _ _ _ => true
  | _ => false

/-- The `*discordgo.Session` as the program uses it: the bot's own user ID (`s.State.User.ID`)
and the platform's answer to each method, a function of the platform state `σ`.  An `error`
result is `some msg` for a non-nil error with `Error()` text `msg` and `none` for nil; a result
with a value is `Except.ok` of the value or `Except.error` of the text. -/
structure Session (σ : Type) where
  UserID : String
  GuildMemberRoleAdd : σ → String → String → String → Option String × σ
  GuildMemberRoleRemove : σ → String → String → String → Option String × σ
  UserChannelCreate : σ → String → Except String String × σ
  ChannelMessageSend : σ → String → String → Option String × σ
  GuildRoles : σ → String → Except String (List Role) × σ
  MessageReactionAdd : σ → String → String → String → Option String × σ

/-- The program state: the globals `config` and `roleCache`, the platform state, the platform
calls made so far (oldest first) and the writes to standard output (oldest first). -/
structure State (σ : Type) where
  config : Config
  roleCache : GoMap (GoMap String)
  world : σ
  calls : List Call
  stdout : List String

/-- The text written by `fmt.Println` on string operands: the operands separated by blanks,
then a newline. -/
def Println (operands : List String) : String := " ".intercalate operands ++ "\n"

/-! ## The functions of `main.go` -/

variable {σ : Type}

/-- The function `sendDM`. -/
def sendDM (s : Session σ) (userID message : String) (st : State σ) : State σ :=
  match s.UserChannelCreate st.world userID with
  | (.error err, w) =>
    { st with
      world := w
      calls := st.calls ++ [.UserChannelCreate userID]
      stdout := st.stdout ++ [Println ["Failed to create DM channel:", err]] }
  | (.ok channelID, w) =>
    match s.ChannelMessageSend w channelID message with
    | (some err, w2) =>
      { st with
        world := w2
        calls := st.calls ++ [.UserChannelCreate userID, .ChannelMessageSend channelID message]
        stdout := st.stdout ++ [Println ["Failed to send DM:", err]] }
    | (none, w2) =>
      { st with
        world := w2
        calls := st.calls ++ [.UserChannelCreate userID, .ChannelMessageSend channelID message] }

/-- The handler `reactionAdd`. -/
def reactionAdd (s : Session σ) (r : MessageReaction) (st : State σ) : State σ :=
  if r.MessageID ≠ st.config.MessageID ∨ r.UserID = s.UserID then st
  else
    match st.config.Reactions.lookup r.Emoji.Name with
    | none => st
    | some roleID =>
      match s.GuildMemberRoleAdd st.world r.GuildID r.UserID roleID with
      | (some err, w) =>
        { st with
          world := w
          calls := st.calls ++ [.GuildMemberRoleAdd r.GuildID r.UserID roleID]
          stdout := st.stdout ++ [Println ["Error adding role:", err]] }
      | (none, w) =>
        let roleName := index2 st.roleCache r.GuildID roleID
        sendDM s r.UserID
          ("✅ You were given the role: **" ++ roleName ++ "** (" ++ r.Emoji.Name ++ ")")
          { st with
            world := w
            calls := st.calls ++ [.GuildMemberRoleAdd r.GuildID r.UserID roleID] }

/-- The handler `reactionRemove`. -/
def reactionRemove (s : Session σ) (r : MessageReaction) (st : State σ) : State σ :=
  if r.MessageID ≠ st.config.MessageID ∨ r.UserID = s.UserID then st
  else
    match st.config.Reactions.lookup r.Emoji.Name with
    | none => st
    | some roleID =>
      match s.GuildMemberRoleRemove st.world r.GuildID r.UserID roleID with
      | (some err, w) =>
        { st with
          world := w
          calls := st.calls ++ [.GuildMemberRoleRemove r.GuildID r.UserID roleID]
          stdout := st.stdout ++ [Println ["Error removing role:", err]] }
      | (none, w) =>
        let roleName := index2 st.roleCache r.GuildID roleID
        sendDM s r.UserID
          ("❌ The role **" ++ roleName ++ "** (" ++ r.Emoji.Name ++ ") was removed from you")
          { st with
            world := w
            calls := st.calls ++ [.GuildMemberRoleRemove r.GuildID r.UserID roleID] }

/-- The assignment `roleCache[guildID][roleID] = roleName`.  The inner map is read from the
outer one first; assigning into the nil map of a missing guild is a run-time panic, `none`. -/
def assignRoleName (roleCache : GoMap (GoMap String)) (guildID roleID roleName : String) :
    Option (GoMap (GoMap String)) :=
  match roleCache.lookup guildID with
  | none => none
  | some inner => some (roleCache.insert guildID (inner.insert roleID roleName))

/-- The loop `for _, role := range roles` of `cacheRoles`, on the role cache. -/
def cacheRolesLoop (guildID : String) :
    List Role → GoMap (GoMap String) → Option (GoMap (GoMap String))
  | [], roleCache => some roleCache
  | role :: rest, roleCache =>
    match assignRoleName roleCache guildID role.ID role.Name with
    | none => none
    | some roleCache2 => cacheRolesLoop guildID rest roleCache2

/-- The function `cacheRoles`: the returned `error` and the new state, or `none` for a
run-time panic. -/
def cacheRoles (s : Session σ) (st : State σ) : Option (Option String × State σ) :=
  match s.GuildRoles st.world st.config.GuildID with
  | (.error err, w) =>
    some (some err, { st with world := w, calls := st.calls ++ [.GuildRoles st.config.GuildID] })
  | (.ok roles, w) =>
    match cacheRolesLoop st.config.GuildID roles
        (st.roleCache.insert st.config.GuildID GoMap.empty) with
    | none => none
    | some roleCache2 =>
      some (none,
        { st with
          roleCache := roleCache2
          world := w
          calls := st.calls ++ [.GuildRoles st.config.GuildID]
          stdout := st.stdout ++ ["Cached " ++ toString roles.length ++ " roles for guild "
            ++ st.config.GuildID ++ "\n"] })

/-- One iteration of the loop of `addStartupReactions`, for the key `emoji`. -/
def addStartupReaction (s : Session σ) (st : State σ) (emoji : String) : State σ :=
  match s.MessageReactionAdd st.world st.config.ChannelID st.config.MessageID emoji with
  | (some err, w) =>
    { st with
      world := w
      calls := st.calls ++ [.MessageReactionAdd st.config.ChannelID st.config.MessageID emoji]
      stdout := st.stdout ++ ["Failed to add reaction " ++ emoji ++ ": " ++ err ++ "\n"] }
  | (none, w) =>
    { st with
      world := w
      calls := st.calls ++ [.MessageReactionAdd st.config.ChannelID st.config.MessageID emoji]
      stdout := st.stdout ++ ["Added reaction: " ++ emoji ++ "\n"] }

/-- The function `addStartupReactions`.  Go leaves the order of `range config.Reactions`
unspecified: `order` is the order in which the run time yields the keys of the map, some
arrangement of `config.Reactions.keys`.  The returned `error` is always nil. -/
def addStartupReactions (s : Session σ) (order : List String) (st : State σ) :
    Option String × State σ :=
  (none, order.foldl (addStartupReaction s) st)

/-- The call of `reactionRemove` that answers a call of `reactionAdd`: the role grant becomes
the revocation with the same arguments, a message send keeps its channel and carries `text`,
any other call stays. -/
def mirror (text : String) : Call → Call
  | .GuildMemberRoleAdd guildID userID roleID => .GuildMemberRoleRemove guildID userID roleID
  | .ChannelMessageSend channelID _ => .ChannelMessageSend channelID text
  | c => c

/-! ## Sessions for the concrete checks -/

/-- A platform that answers every call with success; its state counts the calls.  The direct
channel of user `u` is `"dm-" ++ u`, and the guild has the roles `R1` (Green) and `R2` (Red). -/
def okSession : Session Nat where
  UserID := "BOT"
  GuildMemberRoleAdd := fun n _ _ _ => (none, n + 1)
  GuildMemberRoleRemove := fun n _ _ _ => (none, n + 1)
  UserChannelCreate := fun n u => (.ok ("dm-" ++ u), n + 1)
  ChannelMessageSend := fun n _ _ => (none, n + 1)
  GuildRoles := fun n _ => (.ok [⟨"R1", "Green"⟩, ⟨"R2", "Red"⟩], n + 1)
  MessageReactionAdd := fun n _ _ _ => (none, n + 1)

/-- A platform on which every call fails with the error text `"403"`. -/
def failSession : Session Nat where
  UserID := "BOT"
  GuildMemberRoleAdd := fun n _ _ _ => (some "403", n + 1)
  GuildMemberRoleRemove := fun n _ _ _ => (some "403", n + 1)
  UserChannelCreate := fun n _ => (.error "403", n + 1)
  ChannelMessageSend := fun n _ _ => (some "403", n + 1)
  GuildRoles := fun n _ => (.error "403", n + 1)
  MessageReactionAdd := fun n _ _ _ => (some "403", n + 1)

/-- The reaction map of the specification's scenario: 🟢 gives `R1`, 🔴 gives `R2`. -/
def demoReactions : GoMap String := (GoMap.empty.insert "🔴" "R2").insert "🟢" "R1"

/-- The configuration of the specification's scenario. -/
def demoConfig : Config := ⟨"G", "C", "M", demoReactions⟩

/-- The state after loading `demoConfig`: empty role cache, no call made, nothing written. -/
def demoState : State Nat := ⟨demoConfig, GoMap.empty, 0, [], []⟩

/-- The event of the specification's scenario: user `U` reacts with 🟢 on message `M`. -/
def demoEvent : MessageReaction := ⟨"U", "M", ⟨"🟢"⟩, "C", "G"⟩

/-- The scenario's event on another message, `OTHER`. -/
def otherEvent : MessageReaction := ⟨"U", "OTHER", ⟨"🟢"⟩, "C", "G"⟩

/-- The state `demoState` with the roles of guild `G` cached. -/
def cachedState : State Nat :=
  ⟨demoConfig, GoMap.empty.insert "G" ((GoMap.empty.insert "R2" "Red").insert "R1" "Green"),
    0, [], []⟩

/-- The state `demoState` with an entry for guild `G` from an earlier refresh, holding a role
`OLD` that the guild no longer has, and an entry for another guild `H`. -/
def staleState : State Nat :=
  ⟨demoConfig,
    (GoMap.empty.insert "H" (GoMap.empty.insert "R9" "Blue")).insert "G"
      (GoMap.empty.insert "OLD" "Stale"),
    0, [], []⟩

/-! ## Lemmas on Go maps -/

theorem lookupEntries_eq_none_iff {V : Type} (k : String) (l : List (String × V)) :
    lookupEntries k l = none ↔ k ∉ l.map Prod.fst := by
  induction l with
  | nil => simp [lookupEntries]
  | cons e rest ih =>
    by_cases h : e.1 = k
    · simp [lookupEntries, h]
    · have h2 : ¬ k = e.1 := fun h3 => h h3.symm
      simp [lookupEntries, h, h2, ih]

theorem GoMap.lookup_eq_none_iff {V : Type} (m : GoMap V) (k : String) :
    m.lookup k = none ↔ k ∉ m.keys :=
  lookupEntries_eq_none_iff k m.entries

theorem lookupEntries_filter_ne {V : Type} (k j : String) (h : j ≠ k) (l : List (String × V)) :
    lookupEntries j (l.filter (fun e => e.1 ≠ k)) = lookupEntries j l := by
  induction l with
  | nil => rfl
  | cons e rest ih =>
    by_cases h1 : e.1 = k
    · have h2 : ¬ e.1 = j := fun h3 => h (h3.symm.trans h1)
      rw [List.filter_cons_of_neg (by simpa using h1), ih]
      simp [lookupEntries, h2]
    · rw [List.filter_cons_of_pos (by simpa using h1)]
      simp only [lookupEntries, ih]

theorem GoMap.lookup_insert_self {V : Type} (m : GoMap V) (k : String) (v : V) :
    (m.insert k v).lookup k = some v := by
  simp [GoMap.lookup, GoMap.insert, lookupEntries]

theorem GoMap.lookup_insert_ne {V : Type} (m : GoMap V) (k j : String) (v : V) (h : j ≠ k) :
    (m.insert k v).lookup j = m.lookup j := by
  have h2 : ¬ k = j := fun h3 => h h3.symm
  show lookupEntries j ((k, v) :: m.entries.filter (fun e => e.1 ≠ k)) = lookupEntries j m.entries
  rw [lookupEntries, if_neg h2, lookupEntries_filter_ne k j h]

/-! ## Lemmas on `sendDM` -/

theorem sendDM_calls_error (s : Session σ) (u msg : String) (st : State σ) (err : String) (w : σ)
    (h : s.UserChannelCreate st.world u = (.error err, w)) :
    (sendDM s u msg st).calls = st.calls ++ [.UserChannelCreate u] := by
  simp [sendDM, h]

theorem sendDM_calls_ok (s : Session σ) (u msg : String) (st : State σ) (c : String) (w : σ)
    (h : s.UserChannelCreate st.world u = (.ok c, w)) :
    (sendDM s u msg st).calls = st.calls ++ [.UserChannelCreate u, .ChannelMessageSend c msg] := by
  simp only [sendDM, h]; split <;> rfl

theorem sendDM_calls (s : Session σ) (u msg : String) (st : State σ) :
    ∃ rest, (sendDM s u msg st).calls = st.calls ++ rest ∧
      (∀ c ∈ rest, c.isRoleMutation = false) ∧
      (∀ c t, Call.ChannelMessageSend c t ∈ rest → t = msg) := by
  rcases h : s.UserChannelCreate st.world u with ⟨res, w⟩
  cases res with
  | error err =>
    refine ⟨[.UserChannelCreate u], sendDM_calls_error s u msg st err w h, ?_, ?_⟩
    · intro c hc; simp at hc; subst hc; rfl
    · intro c t hc; simp at hc
  | ok ch =>
    refine ⟨[.UserChannelCreate u, .ChannelMessageSend ch msg],
      sendDM_calls_ok s u msg st ch w h, ?_, ?_⟩
    · intro c hc; simp at hc; rcases hc with hc | hc <;> subst hc <;> rfl
    · intro c t hc; simp at hc; exact hc.2

theorem reactionAdd_of_ignored (s : Session σ) (r : MessageReaction) (st : State σ)
    (h : r.MessageID ≠ st.config.MessageID ∨ r.UserID = s.UserID ∨
      r.Emoji.Name ∉ st.config.Reactions.keys) : reactionAdd s r st = st := by
  unfold reactionAdd
  by_cases hf : r.MessageID ≠ st.config.MessageID ∨ r.UserID = s.UserID
  · rw [if_pos hf]
  · rw [if_neg hf]
    have hk : st.config.Reactions.lookup r.Emoji.Name = none := by
      rw [GoMap.lookup_eq_none_iff]
      rcases h with h | h | h
      · exact absurd (Or.inl h) hf
      · exact absurd (Or.inr h) hf
      · exact h
    rw [hk]

theorem reactionRemove_of_ignored (s : Session σ) (r : MessageReaction) (st : State σ)
    (h : r.MessageID ≠ st.config.MessageID ∨ r.UserID = s.UserID ∨
      r.Emoji.Name ∉ st.config.Reactions.keys) : reactionRemove s r st = st := by
  unfold reactionRemove
  by_cases hf : r.MessageID ≠ st.config.MessageID ∨ r.UserID = s.UserID
  · rw [if_pos hf]
  · rw [if_neg hf]
    have hk : st.config.Reactions.lookup r.Emoji.Name = none := by
      rw [GoMap.lookup_eq_none_iff]
      rcases h with h | h | h
      · exact absurd (Or.inl h) hf
      · exact absurd (Or.inr h) hf
      · exact h
    rw [hk]

/-- The handler `reactionAdd` on an event that passes the filter and whose emoji is mapped. -/
theorem reactionAdd_of_match (s : Session σ) (r : MessageReaction) (st : State σ)
    (roleID : String) (hm : r.MessageID = st.config.MessageID) (hu : r.UserID ≠ s.UserID)
    (hr : st.config.Reactions.lookup r.Emoji.Name = some roleID) :
    reactionAdd s r st =
      match s.GuildMemberRoleAdd st.world r.GuildID r.UserID roleID with
      | (some err, w) =>
        { st with
          world := w
          calls := st.calls ++ [.GuildMemberRoleAdd r.GuildID r.UserID roleID]
          stdout := st.stdout ++ [Println ["Error adding role:", err]] }
      | (none, w) =>
        sendDM s r.UserID
          ("✅ You were given the role: **" ++ index2 st.roleCache r.GuildID roleID ++ "** ("
            ++ r.Emoji.Name ++ ")")
          { st with
            world := w
            calls := st.calls ++ [.GuildMemberRoleAdd r.GuildID r.UserID roleID] } := by
  unfold reactionAdd
  rw [if_neg (by simp [hm, hu]), hr]

/-- The handler `reactionRemove` on an event that passes the filter and whose emoji is mapped. -/
theorem reactionRemove_of_match (s : Session σ) (r : MessageReaction) (st : State σ)
    (roleID : String) (hm : r.MessageID = st.config.MessageID) (hu : r.UserID ≠ s.UserID)
    (hr : st.config.Reactions.lookup r.Emoji.Name = some roleID) :
    reactionRemove s r st =
      match s.GuildMemberRoleRemove st.world r.GuildID r.UserID roleID with
      | (some err, w) =>
        { st with
          world := w
          calls := st.calls ++ [.GuildMemberRoleRemove r.GuildID r.UserID roleID]
          stdout := st.stdout ++ [Println ["Error removing role:", err]] }
      | (none, w) =>
        sendDM s r.UserID
          ("❌ The role **" ++ index2 st.roleCache r.GuildID roleID ++ "** ("
            ++ r.Emoji.Name ++ ") was removed from you")
          { st with
            world := w
            calls := st.calls ++ [.GuildMemberRoleRemove r.GuildID r.UserID roleID] } := by
  unfold reactionRemove
  rw [if_neg (by simp [hm, hu]), hr]

theorem Println_two (a b : String) : Println [a, b] = a ++ " " ++ b ++ "\n" := by
  simp [Println, String.intercalate, String.intercalate.go]

/-! ## Lemmas on the loops -/

theorem foldl_addStartupReaction (s : Session σ) (order : List String) (st : State σ) :
    (order.foldl (addStartupReaction s) st).config = st.config ∧
    (order.foldl (addStartupReaction s) st).calls = st.calls ++
      order.map (Call.MessageReactionAdd st.config.ChannelID st.config.MessageID) := by
  induction order generalizing st with
  | nil => simp
  | cons e rest ih =>
    have hc : (addStartupReaction s st e).config = st.config := by
      unfold addStartupReaction; split <;> rfl
    have hl : (addStartupReaction s st e).calls = st.calls ++
        [Call.MessageReactionAdd st.config.ChannelID st.config.MessageID e] := by
      unfold addStartupReaction; split <;> rfl
    obtain ⟨h1, h2⟩ := ih (addStartupReaction s st e)
    rw [List.foldl_cons, h1, h2, hc, hl]
    simp

theorem cacheRolesLoop_spec (g : String) (roles : List Role) (roleCache : GoMap (GoMap String))
    (inner : GoMap String) (h : roleCache.lookup g = some inner) :
    ∃ roleCache2, cacheRolesLoop g roles roleCache = some roleCache2 ∧
      roleCache2.lookup g =
        some (roles.foldl (fun m role => m.insert role.ID role.Name) inner) ∧
      ∀ g2, g2 ≠ g → roleCache2.lookup g2 = roleCache.lookup g2 := by
  induction roles generalizing roleCache inner with
  | nil => exact ⟨roleCache, rfl, h, fun _ _ => rfl⟩
  | cons role rest ih =>
    obtain ⟨rc2, h1, h2, h3⟩ := ih (roleCache.insert g (inner.insert role.ID role.Name))
      (inner.insert role.ID role.Name) (GoMap.lookup_insert_self _ _ _)
    refine ⟨rc2, ?_, h2, ?_⟩
    · simp only [cacheRolesLoop, assignRoleName, h]
      exact h1
    · intro g2 hg
      rw [h3 g2 hg, GoMap.lookup_insert_ne _ _ _ _ hg]

theorem foldl_insert_lookup_of_forall_ne (id : String) (roles : List Role) (m : GoMap String)
    (h : ∀ x ∈ roles, x.ID ≠ id) :
    (roles.foldl (fun m role => m.insert role.ID role.Name) m).lookup id = m.lookup id := by
  induction roles generalizing m with
  | nil => rfl
  | cons role rest ih =>
    rw [List.foldl_cons, ih _ (fun x hx => h x (List.mem_cons_of_mem _ hx)),
      GoMap.lookup_insert_ne _ _ _ _ (fun h2 => h role (List.mem_cons_self _ _) h2.symm)]

theorem foldl_insert_lookup_last (pre post : List Role) (role : Role) (m : GoMap String)
    (h : ∀ x ∈ post, x.ID ≠ role.ID) :
    ((pre ++ role :: post).foldl (fun m role => m.insert role.ID role.Name) m).lookup role.ID =
      some role.Name := by
  rw [List.foldl_append, List.foldl_cons, foldl_insert_lookup_of_forall_ne role.ID post _ h,
    GoMap.lookup_insert_self]

/-! ## The claims -/

/-- C1: an event that is not actionable (its message ID differs from `config.MessageID`, or its
user is the bot itself, or its emoji is not a key of `config.Reactions`) makes both `reactionAdd`
and `reactionRemove` perform no platform call at all and leave `config` and `roleCache` as they
were. -/
theorem ignored_event_no_calls (s : Session σ) (r : MessageReaction) (st : State σ)
    (h : r.MessageID ≠ st.config.MessageID ∨ r.UserID = s.UserID ∨
      r.Emoji.Name ∉ st.config.Reactions.keys) :
    ((reactionAdd s r st).calls = st.calls ∧ (reactionAdd s r st).config = st.config ∧
      (reactionAdd s r st).roleCache = st.roleCache) ∧
    ((reactionRemove s r st).calls = st.calls ∧ (reactionRemove s r st).config = st.config ∧
      (reactionRemove s r st).roleCache = st.roleCache) := by
  rw [reactionAdd_of_ignored s r st h, reactionRemove_of_ignored s r st h]
  exact ⟨⟨rfl, rfl, rfl⟩, rfl, rfl, rfl⟩

/-- C2: on a matching add event, whatever the platform answers to each call, the calls of
`reactionAdd` start with `GuildMemberRoleAdd guildID userID roleID` and no later call is a role
mutation: one grant, no revoke, no second grant. -/
theorem reactionAdd_single_grant (s : Session σ) (r : MessageReaction) (st : State σ)
    (roleID : String) (hm : r.MessageID = st.config.MessageID) (hu : r.UserID ≠ s.UserID)
    (hr : st.config.Reactions.lookup r.Emoji.Name = some roleID) :
    ∃ rest, (reactionAdd s r st).calls =
        st.calls ++ Call.GuildMemberRoleAdd r.GuildID r.UserID roleID :: rest ∧
      ∀ c ∈ rest, c.isRoleMutation = false := by
  rw [reactionAdd_of_match s r st roleID hm hu hr]
  rcases s.GuildMemberRoleAdd st.world r.GuildID r.UserID roleID with ⟨res, w⟩
  cases res with
  | some err => exact ⟨[], rfl, by simp⟩
  | none =>
    obtain ⟨rest, h1, h2, _⟩ := sendDM_calls s r.UserID
      ("✅ You were given the role: **" ++ index2 st.roleCache r.GuildID roleID ++ "** ("
        ++ r.Emoji.Name ++ ")")
      { st with world := w, calls := st.calls ++ [.GuildMemberRoleAdd r.GuildID r.UserID roleID] }
    exact ⟨rest, by simpa using h1, h2⟩

/-- C3: on a matching event whose role mutation fails with error `err`, the handler makes that
one platform call and no other (no direct channel, no message, no retry), writes the error
report once, and returns with `config` and `roleCache` as they were; for `reactionAdd` with
`GuildMemberRoleAdd` and for `reactionRemove` with `GuildMemberRoleRemove`. -/
theorem mutation_failure_no_notification (s : Session σ) (r : MessageReaction) (st : State σ)
    (roleID : String) (hm : r.MessageID = st.config.MessageID) (hu : r.UserID ≠ s.UserID)
    (hr : st.config.Reactions.lookup r.Emoji.Name = some roleID) :
    (∀ err w, s.GuildMemberRoleAdd st.world r.GuildID r.UserID roleID = (some err, w) →
      (reactionAdd s r st).calls =
        st.calls ++ [Call.GuildMemberRoleAdd r.GuildID r.UserID roleID] ∧
      (reactionAdd s r st).stdout = st.stdout ++ ["Error adding role: " ++ err ++ "\n"] ∧
      (reactionAdd s r st).config = st.config ∧
      (reactionAdd s r st).roleCache = st.roleCache) ∧
    (∀ err w, s.GuildMemberRoleRemove st.world r.GuildID r.UserID roleID = (some err, w) →
      (reactionRemove s r st).calls =
        st.calls ++ [Call.GuildMemberRoleRemove r.GuildID r.UserID roleID] ∧
      (reactionRemove s r st).stdout = st.stdout ++ ["Error removing role: " ++ err ++ "\n"] ∧
      (reactionRemove s r st).config = st.config ∧
      (reactionRemove s r st).roleCache = st.roleCache) := by
  constructor
  · intro err w h
    rw [reactionAdd_of_match s r st roleID hm hu hr, h]
    exact ⟨rfl, by simp [Println_two], rfl, rfl⟩
  · intro err w h
    rw [reactionRemove_of_match s r st roleID hm hu hr, h]
    exact ⟨rfl, by simp [Println_two], rfl, rfl⟩

/-- C5: on a matching add event the notifier runs exactly when `GuildMemberRoleAdd` succeeds.
A failed grant leaves the grant as the only call; after a successful grant there is exactly one
`UserChannelCreate userID`, followed, exactly when it succeeds with channel `c`, by exactly one
`ChannelMessageSend c text`, where `text` is the granted message built from the cached role name
`roleCache[guildID][roleID]` and the emoji, both of which occur in it. -/
theorem reactionAdd_notifies_iff_granted (s : Session σ) (r : MessageReaction) (st : State σ)
    (roleID : String) (hm : r.MessageID = st.config.MessageID) (hu : r.UserID ≠ s.UserID)
    (hr : st.config.Reactions.lookup r.Emoji.Name = some roleID) :
    (∀ err w, s.GuildMemberRoleAdd st.world r.GuildID r.UserID roleID = (some err, w) →
      (reactionAdd s r st).calls =
        st.calls ++ [Call.GuildMemberRoleAdd r.GuildID r.UserID roleID]) ∧
    (∀ w err w2, s.GuildMemberRoleAdd st.world r.GuildID r.UserID roleID = (none, w) →
      s.UserChannelCreate w r.UserID = (.error err, w2) →
      (reactionAdd s r st).calls =
        st.calls ++ [Call.GuildMemberRoleAdd r.GuildID r.UserID roleID,
          Call.UserChannelCreate r.UserID]) ∧
    (∀ w c w2, s.GuildMemberRoleAdd st.world r.GuildID r.UserID roleID = (none, w) →
      s.UserChannelCreate w r.UserID = (.ok c, w2) →
      (reactionAdd s r st).calls =
        st.calls ++ [Call.GuildMemberRoleAdd r.GuildID r.UserID roleID,
          Call.UserChannelCreate r.UserID,
          Call.ChannelMessageSend c
            ("✅ You were given the role: **" ++ index2 st.roleCache r.GuildID roleID ++ "** ("
              ++ r.Emoji.Name ++ ")")]) ∧
    (index2 st.roleCache r.GuildID roleID).data <:+:
      ("✅ You were given the role: **" ++ index2 st.roleCache r.GuildID roleID ++ "** ("
        ++ r.Emoji.Name ++ ")").data ∧
    r.Emoji.Name.data <:+:
      ("✅ You were given the role: **" ++ index2 st.roleCache r.GuildID roleID ++ "** ("
        ++ r.Emoji.Name ++ ")").data := by
  refine ⟨?_, ?_, ?_, ?_, ?_⟩
  · intro err w h
    rw [reactionAdd_of_match s r st roleID hm hu hr, h]
  · intro w err w2 h h2
    rw [reactionAdd_of_match s r st roleID hm hu hr, h]
    simp only
    rw [sendDM_calls_error s _ _ _ err w2 h2]
    simp
  · intro w c w2 h h2
    rw [reactionAdd_of_match s r st roleID hm hu hr, h]
    simp only
    rw [sendDM_calls_ok s _ _ _ c w2 h2]
    simp
  · exact ⟨"✅ You were given the role: **".data, ("** (" ++ r.Emoji.Name ++ ")").data, by
      simp only [String.data_append, List.append_assoc]⟩
  · exact ⟨("✅ You were given the role: **" ++ index2 st.roleCache r.GuildID roleID
      ++ "** (").data, ")".data, by simp only [String.data_append, List.append_assoc]⟩

/-- C4, as the code has it: on a matching add event whose grant and direct channel creation
succeed, when `roleCache[guildID]` has no entry for the role, the role name in the text sent is
the empty string: the text is the granted message with nothing between the asterisks. -/
theorem reactionAdd_uncached_name_empty (s : Session σ) (r : MessageReaction) (st : State σ)
    (roleID : String) (hm : r.MessageID = st.config.MessageID) (hu : r.UserID ≠ s.UserID)
    (hr : st.config.Reactions.lookup r.Emoji.Name = some roleID)
    (hc : st.roleCache.lookup r.GuildID = none ∨
      ∃ inner, st.roleCache.lookup r.GuildID = some inner ∧ inner.lookup roleID = none) :
    ∀ w c w2, s.GuildMemberRoleAdd st.world r.GuildID r.UserID roleID = (none, w) →
      s.UserChannelCreate w r.UserID = (.ok c, w2) →
      (reactionAdd s r st).calls =
        st.calls ++ [Call.GuildMemberRoleAdd r.GuildID r.UserID roleID,
          Call.UserChannelCreate r.UserID,
          Call.ChannelMessageSend c
            ("✅ You were given the role: **** (" ++ r.Emoji.Name ++ ")")] := by
  intro w c w2 h h2
  have hn : index2 st.roleCache r.GuildID roleID = "" := by
    unfold index2
    rcases hc with hc | ⟨inner, hc, hi⟩
    · rw [hc]
    · rw [hc]; simp [index, hi]
  rw [reactionAdd_of_match s r st roleID hm hu hr, h]
  simp only
  rw [sendDM_calls_ok s _ _ _ c w2 h2, hn]
  have ht : "✅ You were given the role: **" ++ "" ++ "** (" ++ r.Emoji.Name ++ ")" =
      "✅ You were given the role: **** (" ++ r.Emoji.Name ++ ")" := by
    apply String.ext
    simp only [String.data_append, List.append_assoc]
    rfl
  simp [ht]

/-- C6: `reactionRemove` mirrors `reactionAdd`.  When the platform answers a role removal as it
answers the role grant, the calls of `reactionRemove` are the calls of `reactionAdd` with the
grant replaced by the removal with the same arguments and the text of the message replaced by
the revoked message for the same role name and emoji; every message `reactionAdd` sends carries
the granted message for that role name and emoji. -/
theorem reactionRemove_mirrors_reactionAdd (s : Session σ) (r : MessageReaction) (st : State σ)
    (hsym : ∀ g u role,
      s.GuildMemberRoleRemove st.world g u role = s.GuildMemberRoleAdd st.world g u role) :
    ∃ trace, (reactionAdd s r st).calls = st.calls ++ trace ∧
      (reactionRemove s r st).calls = st.calls ++ trace.map (mirror
        ("❌ The role **" ++
          index2 st.roleCache r.GuildID (index st.config.Reactions r.Emoji.Name) ++ "** ("
          ++ r.Emoji.Name ++ ") was removed from you")) ∧
      ∀ c t, Call.ChannelMessageSend c t ∈ trace → t =
        "✅ You were given the role: **" ++
          index2 st.roleCache r.GuildID (index st.config.Reactions r.Emoji.Name) ++ "** ("
          ++ r.Emoji.Name ++ ")" := by
  by_cases hi : r.MessageID ≠ st.config.MessageID ∨ r.UserID = s.UserID ∨
      r.Emoji.Name ∉ st.config.Reactions.keys
  · rw [reactionAdd_of_ignored s r st hi, reactionRemove_of_ignored s r st hi]
    exact ⟨[], by simp, by simp, by simp⟩
  · simp only [not_or, not_not, ← GoMap.lookup_eq_none_iff] at hi
    obtain ⟨hm, hu, hk⟩ := hi
    obtain ⟨roleID, hr⟩ := Option.ne_none_iff_exists'.1 hk
    have hx : index st.config.Reactions r.Emoji.Name = roleID := by simp [index, hr]
    rw [reactionAdd_of_match s r st roleID hm hu hr,
      reactionRemove_of_match s r st roleID hm hu hr, hsym, hx]
    rcases s.GuildMemberRoleAdd st.world r.GuildID r.UserID roleID with ⟨res, w⟩
    cases res with
    | some err =>
      exact ⟨[.GuildMemberRoleAdd r.GuildID r.UserID roleID], rfl, rfl, by simp⟩
    | none =>
      rcases h2 : s.UserChannelCreate w r.UserID with ⟨res2, w2⟩
      cases res2 with
      | error err =>
        refine ⟨[.GuildMemberRoleAdd r.GuildID r.UserID roleID, .UserChannelCreate r.UserID],
          ?_, ?_, by simp⟩
        · simp only
          rw [sendDM_calls_error s _ _ _ err w2 h2]; simp
        · simp only
          rw [sendDM_calls_error s _ _ _ err w2 h2]; simp [mirror]
      | ok c =>
        refine ⟨[.GuildMemberRoleAdd r.GuildID r.UserID roleID, .UserChannelCreate r.UserID,
          .ChannelMessageSend c ("✅ You were given the role: **" ++
            index2 st.roleCache r.GuildID roleID ++ "** (" ++ r.Emoji.Name ++ ")")],
          ?_, ?_, by simp⟩
        · simp only
          rw [sendDM_calls_ok s _ _ _ c w2 h2]; simp
        · simp only
          rw [sendDM_calls_ok s _ _ _ c w2 h2]; simp [mirror]

/-- C7: whatever the platform answers, `addStartupReactions`, ranging over the keys of
`config.Reactions` in the order `order`, makes the calls
`MessageReactionAdd config.ChannelID config.MessageID e` for the keys `e` and no other call:
the calls are a rearrangement of the key list, each key is called for exactly once, and the
returned error is nil. -/
theorem addStartupReactions_one_call_per_key (s : Session σ) (order : List String)
    (st : State σ) (horder : order.Perm st.config.Reactions.keys) :
    ∃ trace, (addStartupReactions s order st).2.calls = st.calls ++ trace ∧
      trace.Perm (st.config.Reactions.keys.map
        (Call.MessageReactionAdd st.config.ChannelID st.config.MessageID)) ∧
      (∀ e ∈ st.config.Reactions.keys,
        trace.count (Call.MessageReactionAdd st.config.ChannelID st.config.MessageID e) = 1) ∧
      trace.length = st.config.Reactions.keys.length ∧
      (addStartupReactions s order st).1 = none := by
  have hp : (order.map (Call.MessageReactionAdd st.config.ChannelID st.config.MessageID)).Perm
      (st.config.Reactions.keys.map
        (Call.MessageReactionAdd st.config.ChannelID st.config.MessageID)) := horder.map _
  refine ⟨order.map (Call.MessageReactionAdd st.config.ChannelID st.config.MessageID),
    (foldl_addStartupReaction s order st).2, hp, ?_, ?_, rfl⟩
  · intro e he
    rw [hp.count_eq]
    have hinj : Function.Injective
        (Call.MessageReactionAdd st.config.ChannelID st.config.MessageID) := by
      intro a b hab
      injection hab
    exact List.count_eq_one_of_mem (st.config.Reactions.nodup.map hinj)
      (List.mem_map_of_mem _ he)
  · rw [List.length_map, horder.length_eq]

/-- C8: when `GuildRoles config.GuildID` succeeds with the role list `roles`, `cacheRoles`
returns nil and `roleCache[config.GuildID]` is the map built from `roles` alone: a role ID maps
to the name of the last role of `roles` with that ID, a role ID that no role of `roles` has is
absent whatever the old entry held, and the entries of the other guilds are as before. -/
theorem cacheRoles_replaces_entry (s : Session σ) (st : State σ) (roles : List Role) (w : σ)
    (h : s.GuildRoles st.world st.config.GuildID = (.ok roles, w)) :
    ∃ st2 entry, cacheRoles s st = some (none, st2) ∧
      st2.roleCache.lookup st.config.GuildID = some entry ∧
      (∀ pre role post, roles = pre ++ role :: post → (∀ x ∈ post, x.ID ≠ role.ID) →
        entry.lookup role.ID = some role.Name) ∧
      (∀ id, (∀ x ∈ roles, x.ID ≠ id) → entry.lookup id = none) ∧
      (∀ g, g ≠ st.config.GuildID → st2.roleCache.lookup g = st.roleCache.lookup g) ∧
      st2.config = st.config := by
  obtain ⟨rc2, h1, h2, h3⟩ := cacheRolesLoop_spec st.config.GuildID roles
    (st.roleCache.insert st.config.GuildID GoMap.empty) GoMap.empty
    (GoMap.lookup_insert_self _ _ _)
  refine ⟨{ st with
      roleCache := rc2
      world := w
      calls := st.calls ++ [.GuildRoles st.config.GuildID]
      stdout := st.stdout ++ ["Cached " ++ toString roles.length ++ " roles for guild "
        ++ st.config.GuildID ++ "\n"] }, _, ?_, h2, ?_, ?_, ?_, rfl⟩
  · simp only [cacheRoles, h, h1]
  · intro pre role post hroles hpost
    rw [hroles]
    exact foldl_insert_lookup_last pre post role _ hpost
  · intro id hid
    rw [foldl_insert_lookup_of_forall_ne id roles _ hid]
    rfl
  · intro g hg
    rw [h3 g hg, GoMap.lookup_insert_ne _ _ _ _ hg]

/-- C9: when `GuildRoles config.GuildID` fails with error `err`, `cacheRoles` returns `err`
and `roleCache` is exactly what it was before the call, as is `config`; the one platform call
made is `GuildRoles`. -/
theorem cacheRoles_failure_keeps_cache (s : Session σ) (st : State σ) (err : String) (w : σ)
    (h : s.GuildRoles st.world st.config.GuildID = (.error err, w)) :
    ∃ st2, cacheRoles s st = some (some err, st2) ∧ st2.roleCache = st.roleCache ∧
      st2.config = st.config ∧ st2.calls = st.calls ++ [Call.GuildRoles st.config.GuildID] := by
  refine ⟨{ st with world := w, calls := st.calls ++ [.GuildRoles st.config.GuildID] },
    ?_, rfl, rfl, rfl⟩
  · simp only [cacheRoles, h]

/-- C10: the read `roleCache[guildID][roleID]` yields the empty string, the absent value, when
the guild has no entry in `roleCache` and when the guild's entry has no binding for the role;
in particular on the empty cache the program starts with. -/
theorem roleCache_read_absent (roleCache : GoMap (GoMap String)) (guildID roleID : String)
    (h : guildID ∉ roleCache.keys ∨
      ∃ inner, roleCache.lookup guildID = some inner ∧ roleID ∉ inner.keys) :
    index2 roleCache guildID roleID = "" ∧ index2 GoMap.empty guildID roleID = "" := by
  refine ⟨?_, rfl⟩
  unfold index2
  rcases h with h | ⟨inner, h, hi⟩
  · rw [(GoMap.lookup_eq_none_iff _ _).2 h]
  · rw [h]
    simp [index, (GoMap.lookup_eq_none_iff _ _).2 hi]

/-! ## Concrete checks -/

theorem ignored_event_no_calls_witness :
    otherEvent.MessageID ≠ demoState.config.MessageID ∧
    (reactionAdd okSession otherEvent demoState).calls = [] ∧
    (reactionRemove okSession otherEvent demoState).calls = [] :=
  ⟨by decide,
    (ignored_event_no_calls okSession otherEvent demoState (Or.inl (by decide))).1.1,
    (ignored_event_no_calls okSession otherEvent demoState (Or.inl (by decide))).2.1⟩

theorem reactionAdd_single_grant_witness :
    demoEvent.MessageID = demoState.config.MessageID ∧ demoEvent.UserID ≠ okSession.UserID ∧
    demoState.config.Reactions.lookup demoEvent.Emoji.Name = some "R1" ∧
    ∃ rest, (reactionAdd okSession demoEvent demoState).calls =
        [] ++ Call.GuildMemberRoleAdd "G" "U" "R1" :: rest ∧
      ∀ c ∈ rest, c.isRoleMutation = false :=
  ⟨rfl, by decide, rfl,
    reactionAdd_single_grant okSession demoEvent demoState "R1" rfl (by decide) rfl⟩

theorem mutation_failure_no_notification_witness :
    demoEvent.MessageID = demoState.config.MessageID ∧ demoEvent.UserID ≠ failSession.UserID ∧
    demoState.config.Reactions.lookup demoEvent.Emoji.Name = some "R1" ∧
    failSession.GuildMemberRoleAdd 0 "G" "U" "R1" = (some "403", 1) ∧
    (reactionAdd failSession demoEvent demoState).calls =
      [Call.GuildMemberRoleAdd "G" "U" "R1"] ∧
    (reactionAdd failSession demoEvent demoState).stdout = ["Error adding role: 403\n"] ∧
    (reactionRemove failSession demoEvent demoState).calls =
      [Call.GuildMemberRoleRemove "G" "U" "R1"] ∧
    (reactionRemove failSession demoEvent demoState).stdout = ["Error removing role: 403\n"] :=
  ⟨rfl, by decide, rfl, rfl,
    ((mutation_failure_no_notification failSession demoEvent demoState "R1" rfl (by decide)
      rfl).1 "403" 1 rfl).1,
    ((mutation_failure_no_notification failSession demoEvent demoState "R1" rfl (by decide)
      rfl).1 "403" 1 rfl).2.1,
    ((mutation_failure_no_notification failSession demoEvent demoState "R1" rfl (by decide)
      rfl).2 "403" 1 rfl).1,
    ((mutation_failure_no_notification failSession demoEvent demoState "R1" rfl (by decide)
      rfl).2 "403" 1 rfl).2.1⟩

/-- C4 fails as stated: with an empty role cache, user `U` reacting with 🟢 (mapped to `R1`) on
a platform where every call succeeds is sent a text with an empty role name, in which the raw
role identifier `R1` does not occur. -/
theorem uncached_role_text_counterexample :
    demoEvent.MessageID = demoState.config.MessageID ∧ demoEvent.UserID ≠ okSession.UserID ∧
    demoState.config.Reactions.lookup demoEvent.Emoji.Name = some "R1" ∧
    demoState.roleCache.lookup demoEvent.GuildID = none ∧
    okSession.GuildMemberRoleAdd demoState.world "G" "U" "R1" = (none, 1) ∧
    (reactionAdd okSession demoEvent demoState).calls =
      [Call.GuildMemberRoleAdd "G" "U" "R1", Call.UserChannelCreate "U",
        Call.ChannelMessageSend "dm-U" "✅ You were given the role: **** (🟢)"] ∧
    ¬ ("R1".data <:+: "✅ You were given the role: **** (🟢)".data) :=
  ⟨rfl, by decide, rfl, rfl, rfl, by decide, by decide⟩

theorem reactionAdd_uncached_name_empty_witness :
    demoEvent.MessageID = demoState.config.MessageID ∧ demoEvent.UserID ≠ okSession.UserID ∧
    demoState.config.Reactions.lookup demoEvent.Emoji.Name = some "R1" ∧
    demoState.roleCache.lookup demoEvent.GuildID = none ∧
    (reactionAdd okSession demoEvent demoState).calls =
      [] ++ [Call.GuildMemberRoleAdd "G" "U" "R1", Call.UserChannelCreate "U",
        Call.ChannelMessageSend "dm-U" ("✅ You were given the role: **** (" ++ "🟢" ++ ")")] :=
  ⟨rfl, by decide, rfl, rfl,
    reactionAdd_uncached_name_empty okSession demoEvent demoState "R1" rfl (by decide) rfl
      (Or.inl rfl) 1 "dm-U" 2 rfl rfl⟩

theorem reactionAdd_notifies_iff_granted_witness :
    demoEvent.MessageID = cachedState.config.MessageID ∧ demoEvent.UserID ≠ okSession.UserID ∧
    cachedState.config.Reactions.lookup demoEvent.Emoji.Name = some "R1" ∧
    index2 cachedState.roleCache "G" "R1" = "Green" ∧
    (reactionAdd okSession demoEvent cachedState).calls =
      [] ++ [Call.GuildMemberRoleAdd "G" "U" "R1", Call.UserChannelCreate "U",
        Call.ChannelMessageSend "dm-U"
          ("✅ You were given the role: **" ++ "Green" ++ "** (" ++ "🟢" ++ ")")] :=
  ⟨rfl, by decide, rfl, rfl,
    (reactionAdd_notifies_iff_granted okSession demoEvent cachedState "R1" rfl (by decide)
      rfl).2.2.1 1 "dm-U" 2 rfl rfl⟩

theorem reactionRemove_mirrors_reactionAdd_witness :
    (∀ g u role, okSession.GuildMemberRoleRemove cachedState.world g u role =
      okSession.GuildMemberRoleAdd cachedState.world g u role) ∧
    ∃ trace, (reactionAdd okSession demoEvent cachedState).calls = [] ++ trace ∧
      (reactionRemove okSession demoEvent cachedState).calls = [] ++ trace.map (mirror
        ("❌ The role **" ++ index2 cachedState.roleCache "G" (index demoReactions "🟢") ++
          "** (" ++ "🟢" ++ ") was removed from you")) ∧
      ∀ c t, Call.ChannelMessageSend c t ∈ trace → t =
        "✅ You were given the role: **" ++
          index2 cachedState.roleCache "G" (index demoReactions "🟢") ++ "** (" ++ "🟢" ++ ")" :=
  ⟨fun _ _ _ => rfl,
    reactionRemove_mirrors_reactionAdd okSession demoEvent cachedState (fun _ _ _ => rfl)⟩

theorem addStartupReactions_one_call_per_key_witness :
    ["🔴", "🟢"].Perm demoState.config.Reactions.keys ∧
    ∃ trace, (addStartupReactions failSession ["🔴", "🟢"] demoState).2.calls = [] ++ trace ∧
      trace.Perm (["🟢", "🔴"].map (Call.MessageReactionAdd "C" "M")) ∧
      (∀ e ∈ ["🟢", "🔴"], trace.count (Call.MessageReactionAdd "C" "M" e) = 1) ∧
      trace.length = 2 ∧
      (addStartupReactions failSession ["🔴", "🟢"] demoState).1 = none :=
  ⟨List.Perm.swap _ _ _,
    addStartupReactions_one_call_per_key failSession ["🔴", "🟢"] demoState
      (List.Perm.swap _ _ _)⟩

theorem cacheRoles_replaces_entry_witness :
    okSession.GuildRoles staleState.world staleState.config.GuildID =
      (.ok [⟨"R1", "Green"⟩, ⟨"R2", "Red"⟩], 1) ∧
    index2 staleState.roleCache "G" "OLD" = "Stale" ∧
    ∃ st2 entry, cacheRoles okSession staleState = some (none, st2) ∧
      st2.roleCache.lookup "G" = some entry ∧
      entry.lookup "R1" = some "Green" ∧ entry.lookup "OLD" = none ∧
      st2.roleCache.lookup "H" = staleState.roleCache.lookup "H" := by
  obtain ⟨st2, entry, h1, h2, h3, h4, h5, _⟩ :=
    cacheRoles_replaces_entry okSession staleState [⟨"R1", "Green"⟩, ⟨"R2", "Red"⟩] 1 rfl
  exact ⟨rfl, rfl, st2, entry, h1, h2, h3 [] ⟨"R1", "Green"⟩ [⟨"R2", "Red"⟩] rfl (by decide),
    h4 "OLD" (by decide), h5 "H" (by decide)⟩

theorem cacheRoles_failure_keeps_cache_witness :
    failSession.GuildRoles staleState.world staleState.config.GuildID = (.error "403", 1) ∧
    ∃ st2, cacheRoles failSession staleState = some (some "403", st2) ∧
      st2.roleCache = staleState.roleCache ∧ st2.config = staleState.config ∧
      st2.calls = [] ++ [Call.GuildRoles "G"] :=
  ⟨rfl, cacheRoles_failure_keeps_cache failSession staleState "403" 1 rfl⟩

theorem roleCache_read_absent_witness :
    "G" ∉ demoState.roleCache.keys ∧
    index2 demoState.roleCache "G" "R1" = "" ∧ index2 GoMap.empty "G" "R1" = "" :=
  ⟨by decide, roleCache_read_absent demoState.roleCache "G" "R1" (Or.inl (by decide))⟩

end Rolomator
